import Mathlib

/-!
Verification of the flag-evaluation module (`model.py`) of the repository.

The module works on JSON-like dictionaries.  We embed the dynamic values as
an inductive `JSON` type and translate the Python operations that the module
uses (dictionary `.get`, subscripting, `float(...)` conversion, `+` and `/`)
into total Lean functions returning `Except PyErr _`, where the error
constructors name the Python exception classes that each operation can raise.
Python numbers (int and float alike) are modelled as exact rationals `ℚ`;
every number the module manipulates is either a field of the input record or
obtained from them by `+` and `/`, so the rational model is faithful for the
claims below, which are about exact arithmetic on small inputs.
-/

/-- The Python exceptions relevant to `model.py`.  `total_revenue` and `iscr`
catch exactly `KeyError` and `ValueError`; the others propagate. -/
inductive PyErr where
  | keyError
  | valueError
  | typeError
  | indexError
  | attributeError
  | zeroDivisionError
  deriving DecidableEq, Repr

/-- JSON-like Python values: `None`, numbers (int/float as exact rationals),
strings, booleans, dicts with string keys, and lists. -/
inductive JSON where
  | null
  | num (q : ℚ)
  | str (s : String)
  | bool (b : Bool)
  | obj (fields : List (String × JSON))
  | arr (items : List JSON)

/-- First-match lookup in a dict's field list (Python dict keys are unique;
first match is the faithful reading). -/
def dict_lookup : List (String × JSON) → String → Option JSON
  | [], _ => none
  | (k, v) :: rest, key => if k = key then some v else dict_lookup rest key

/-- Python `d.get(key, default)`: only dicts have a `.get` attribute; on any
other value it raises `AttributeError`. -/
def dict_get (v : JSON) (key : String) (dflt : JSON) : Except PyErr JSON :=
  match v with
  | .obj fields => .ok ((dict_lookup fields key).getD dflt)
  | _ => .error .attributeError

/-- Python `d.get(key)` with no default: absent key yields `None`. -/
def dict_get_none (v : JSON) (key : String) : Except PyErr JSON :=
  dict_get v key .null

/-- Python list subscription `items[i]` with an `int` index: negative indices
count from the end; anything outside `[-len, len)` raises `IndexError`. -/
def py_list_index (items : List JSON) (i : Int) : Except PyErr JSON :=
  let n : Int := items.length
  let j : Int := if i < 0 then i + n else i
  if 0 ≤ j ∧ j < n then
    match items.get? j.toNat with
    | some x => .ok x
    | none => .error .indexError
  else .error .indexError

/-- Python string subscription `s[i]`: yields a one-character string, with
the same index convention as lists. -/
def py_str_index (s : String) (i : Int) : Except PyErr JSON :=
  let cs := s.data
  let n : Int := cs.length
  let j : Int := if i < 0 then i + n else i
  if 0 ≤ j ∧ j < n then
    match cs.get? j.toNat with
    | some c => .ok (.str (String.mk [c]))
    | none => .error .indexError
  else .error .indexError

/-- Python subscription `v[i]` with an `int` index.  Subscripting a dict with
an `int` looks the integer up as a key; our dicts have only string keys, so it
always raises `KeyError`.  `None`, numbers and booleans are not subscriptable
(`TypeError`). -/
def py_subscript (v : JSON) (i : Int) : Except PyErr JSON :=
  match v with
  | .arr items => py_list_index items i
  | .str s => py_str_index s i
  | .obj _ => .error .keyError
  | _ => .error .typeError

/-- The numeric value of a Python operand: numbers are themselves and
booleans coerce to 0/1; everything else is non-numeric. -/
def py_num_val? : JSON → Option ℚ
  | .num q => some q
  | .bool b => some (if b then 1 else 0)
  | _ => none

/-- Python `a + b`: numeric addition (booleans coerce), string and list
concatenation; every other combination raises `TypeError`. -/
def py_add (a b : JSON) : Except PyErr JSON :=
  match py_num_val? a, py_num_val? b with
  | some x, some y => .ok (.num (x + y))
  | _, _ =>
    match a, b with
    | .str s, .str t => .ok (.str (s ++ t))
    | .arr xs, .arr ys => .ok (.arr (xs ++ ys))
    | _, _ => .error .typeError

/-- Python `a / b` on the values reachable in `iscr`: true division of
numbers (booleans coerce), `ZeroDivisionError` on a zero divisor, and
`TypeError` when either operand is non-numeric. -/
def py_div (a b : JSON) : Except PyErr ℚ :=
  match py_num_val? a, py_num_val? b with
  | some x, some y => if y = 0 then .error .zeroDivisionError else .ok (x / y)
  | _, _ => .error .typeError

/-- The ASCII characters Python's `float(str)` strips as surrounding
whitespace (the ASCII part of `Py_UNICODE_ISSPACE`): HT, LF, VT, FF, CR,
FS, GS, RS, US and space. -/
def py_space (c : Char) : Bool :=
  c == ' ' || c == '\t' || c == '\n' || c == '\x0b' || c == '\x0c' ||
  c == '\r' || c == '\x1c' || c == '\x1d' || c == '\x1e' || c == '\x1f'

/-- Strip leading and trailing whitespace, as `float(str)` does before
parsing. -/
def strip_py_spaces (cs : List Char) : List Char :=
  ((cs.dropWhile py_space).reverse.dropWhile py_space).reverse

/-- Consume the single optional leading sign of a float string. -/
def split_sign : List Char → ℚ × List Char
  | '+' :: rest => (1, rest)
  | '-' :: rest => (-1, rest)
  | cs => (1, cs)

/-- Continue a `digitpart` (`digit (["_"] digit)*`, PEP 515): consume
further digits, allowing an underscore only between two digits.  Returns
the accumulated value, the number of digits consumed, and the rest of the
input (starting at the first character that is not part of the
digitpart). -/
def digitpart_cont (acc nd : Nat) : List Char → Nat × Nat × List Char
  | [] => (acc, nd, [])
  | c :: rest =>
      if c.isDigit then
        digitpart_cont (acc * 10 + (c.toNat - '0'.toNat)) (nd + 1) rest
      else if c = '_' then
        match rest with
        | d :: rest2 =>
            if d.isDigit then
              digitpart_cont (acc * 10 + (d.toNat - '0'.toNat)) (nd + 1) rest2
            else (acc, nd, c :: rest)
        | [] => (acc, nd, [c])
      else (acc, nd, c :: rest)

/-- Parse a `digitpart`: it must start with a digit; underscores may only
separate digits.  Returns its value, its digit count and the rest. -/
def take_digitpart : List Char → Option (Nat × Nat × List Char)
  | c :: rest =>
      if c.isDigit then some (digitpart_cont (c.toNat - '0'.toNat) 1 rest)
      else none
  | [] => none

/-- Parse the mantissa of a Python float string
(`digitpart ["." [digitpart]] | "." digitpart`): its exact rational value
and the rest of the input. -/
def parse_mantissa (cs : List Char) : Option (ℚ × List Char) :=
  match take_digitpart cs with
  | some (i, _, rest) =>
      match rest with
      | '.' :: rest2 =>
          match take_digitpart rest2 with
          | some (f, nf, rest3) => some ((i : ℚ) + (f : ℚ) / (10 : ℚ) ^ nf, rest3)
          | none => some ((i : ℚ), rest2)
      | _ => some ((i : ℚ), rest)
  | none =>
      match cs with
      | '.' :: rest2 =>
          match take_digitpart rest2 with
          | some (f, nf, rest3) => some ((f : ℚ) / (10 : ℚ) ^ nf, rest3)
          | none => none
      | _ => none

/-- Parse a float-string exponent after the `e`/`E`: optional sign and a
digitpart consuming the whole rest of the input. -/
def parse_exp (cs : List Char) : Option ℤ :=
  let sgb : ℤ × List Char :=
    match cs with
    | '+' :: rest => (1, rest)
    | '-' :: rest => (-1, rest)
    | _ => (1, cs)
  match take_digitpart sgb.2 with
  | some (e, _, rest) => if rest.isEmpty then some (sgb.1 * (e : ℤ)) else none
  | none => none

/-- Outcome of Python `float(str)`: a finite float with this exact rational
value, a successful conversion to an IEEE infinity or NaN (no rational
counterpart), or a `ValueError`. -/
inductive PyFloatParse where
  | finite (q : ℚ)
  | nonfinite
  | invalid
  deriving DecidableEq

/-- Python `float(str)` on ASCII strings, per CPython's accepted grammar:
optional surrounding whitespace, optional sign, then case-insensitively
`inf`/`infinity`/`nan` (a successful non-finite conversion) or a decimal
number `([digitpart] "." digitpart | digitpart ["."]) [("e"|"E") [sign]
digitpart]` with PEP 515 underscores between digits.  Anything else raises
`ValueError`.  (Non-ASCII digit and whitespace forms that CPython also
converts are outside this model's scope; the theorems over strings carry an
ASCII hypothesis.) -/
def py_float_parse (s : String) : PyFloatParse :=
  let body := strip_py_spaces s.data
  let sgb := split_sign body
  let low := sgb.2.map Char.toLower
  if low = ['i', 'n', 'f'] ∨ low = "infinity".data ∨ low = ['n', 'a', 'n'] then
    .nonfinite
  else
    match parse_mantissa sgb.2 with
    | none => .invalid
    | some (m, rest) =>
        match rest with
        | [] => .finite (sgb.1 * m)
        | c :: rest2 =>
            if c = 'e' ∨ c = 'E' then
              match parse_exp rest2 with
              | some ez => .finite (sgb.1 * (m * (10 : ℚ) ^ ez))
              | none => .invalid
            else .invalid

/-- Python `float(v)`: numbers convert to themselves, booleans to 0/1,
strings are parsed by `py_float_parse` (`ValueError` when rejected), and
`None`, dicts and lists raise `TypeError`.  A string spelling an IEEE
infinity or NaN converts successfully in Python; those values have no
rational counterpart, so this branch returns the stand-in 0 — no theorem
in this file constrains the returned value in that case, only that no
exception is raised. -/
def py_float (v : JSON) : Except PyErr ℚ :=
  match v with
  | .num q => .ok q
  | .bool b => .ok (if b then 1 else 0)
  | .str s =>
      match py_float_parse s with
      | .finite q => .ok q
      | .nonfinite => .ok 0
      | .invalid => .error .valueError
  | _ => .error .typeError

/-- The `except (KeyError, ValueError): return 0.0` handler wrapped around
the bodies of `total_revenue` and `iscr`: those two exception classes are
mapped to a returned `0.0`; any other exception propagates. -/
def catch_kv_err (e : Except PyErr ℚ) : Except PyErr ℚ :=
  match e with
  | .error .keyError => .ok 0
  | .error .valueError => .ok 0
  | x => x

/-- The repeated source pattern
`entry.get("pnl", {}).get("lineItems", {}).get(field, 0)`:
extract a P&L line item from a financial entry, defaulting each missing
level and finally the field itself to 0. -/
def pnl_line_item (financial_entry : JSON) (field : String) : Except PyErr JSON :=
  (dict_get financial_entry "pnl" (.obj [])).bind fun pnl =>
  (dict_get pnl "lineItems" (.obj [])).bind fun li =>
  dict_get li field (.num 0)

/-- `total_revenue(data, financial_index)` from `model.py` lines 21-31:
`data.get("financials")[financial_index]`, then the netRevenue line item,
then `float(...)`, with `KeyError`/`ValueError` mapped to `0.0`. -/
def total_revenue (data : JSON) (financial_index : Int) : Except PyErr ℚ :=
  catch_kv_err (
    (dict_get_none data "financials").bind fun fins =>
    (py_subscript fins financial_index).bind fun financial_entry =>
    (pnl_line_item financial_entry "netRevenue").bind fun net_revenue =>
    py_float net_revenue)

/-- `iscr(data, financial_index)` from `model.py` lines 49-63:
`(profit_before_interest_and_tax + depreciation + 1) / (interest_expenses + 1)`
over the entry's line items, with `KeyError`/`ValueError` mapped to `0.0`. -/
def iscr (data : JSON) (financial_index : Int) : Except PyErr ℚ :=
  catch_kv_err (
    (dict_get_none data "financials").bind fun fins =>
    (py_subscript fins financial_index).bind fun financial_entry =>
    (pnl_line_item financial_entry "profitBeforeInterestAndTax").bind fun pbit =>
    (pnl_line_item financial_entry "depreciation").bind fun dep =>
    (pnl_line_item financial_entry "interestExpenses").bind fun ie =>
    (py_add pbit dep).bind fun s1 =>
    (py_add s1 (.num 1)).bind fun numer =>
    (py_add ie (.num 1)).bind fun denom =>
    py_div numer denom)

/-- Modelled from the spec: the sibling `rule` module imported by `model.py`
(`latest_financial_index`, `total_revenue_5cr_flag`,
`borrowing_to_revenue_flag`, `iscr_flag`) is not part of the sources.  The
spec treats the four as black-box pure collaborators: an index selector and
three boolean rule predicates on `(record, index)`.  We model them as an
arbitrary record of pure functions. -/
structure RuleModule where
  latest_financial_index : JSON → Int
  total_revenue_5cr_flag : JSON → Int → Bool
  borrowing_to_revenue_flag : JSON → Int → Bool
  iscr_flag : JSON → Int → Bool

/-- `probe_model_5l_profit(data)` from `model.py` lines 66-91: select the
latest index once, apply the three rule predicates to `(data, that index)`,
and assemble the three flags under a top-level `"flags"` key. -/
def probe_model_5l_profit (rule : RuleModule) (data : JSON) : JSON :=
  let lastest_financial_index_value := rule.latest_financial_index data
  let total_revenue_5cr_flag_value :=
    rule.total_revenue_5cr_flag data lastest_financial_index_value
  let borrowing_to_revenue_flag_value :=
    rule.borrowing_to_revenue_flag data lastest_financial_index_value
  let iscr_flag_value := rule.iscr_flag data lastest_financial_index_value
  .obj [("flags", .obj [
    ("TOTAL_REVENUE_5CR_FLAG", .bool total_revenue_5cr_flag_value),
    ("BORROWING_TO_REVENUE_FLAG", .bool borrowing_to_revenue_flag_value),
    ("ISCR_FLAG", .bool iscr_flag_value)])]

/-- Observable calls that `probe_model_5l_profit` makes into the rule
module: one event per call to `latest_financial_index`, and one per rule
predicate call recording the index it was passed. -/
inductive RuleCall where
  | latestCall
  | flagCall (name : String) (idx : Int)

/-- Whether an event is a `latest_financial_index` call. -/
def RuleCall.isLatest : RuleCall → Bool
  | .latestCall => true
  | .flagCall _ _ => false

/-- `probe_model_5l_profit` instrumented with the sequence of rule-module
calls it performs, line for line in source order (lines 73-83): one
`latest_financial_index` call, then the three predicate calls, each passed
the value computed by that single call. -/
def probe_model_5l_profit_calls (rule : RuleModule) (data : JSON) :
    JSON × List RuleCall :=
  let lastest_financial_index_value := rule.latest_financial_index data
  let total_revenue_5cr_flag_value :=
    rule.total_revenue_5cr_flag data lastest_financial_index_value
  let borrowing_to_revenue_flag_value :=
    rule.borrowing_to_revenue_flag data lastest_financial_index_value
  let iscr_flag_value := rule.iscr_flag data lastest_financial_index_value
  (.obj [("flags", .obj [
    ("TOTAL_REVENUE_5CR_FLAG", .bool total_revenue_5cr_flag_value),
    ("BORROWING_TO_REVENUE_FLAG", .bool borrowing_to_revenue_flag_value),
    ("ISCR_FLAG", .bool iscr_flag_value)])],
   [.latestCall,
    .flagCall "total_revenue_5cr_flag" lastest_financial_index_value,
    .flagCall "borrowing_to_revenue_flag" lastest_financial_index_value,
    .flagCall "iscr_flag" lastest_financial_index_value])

/-- A financial entry whose only line item is `interestExpenses = -1`:
the `iscr` denominator is then `-1 + 1 = 0`. -/
def entry_ie_neg1 : JSON :=
  .obj [("pnl", .obj [("lineItems", .obj [("interestExpenses", .num (-1))])])]

/-- A record whose single entry carries `interestExpenses = -1`. -/
def rec_ie_neg1 : JSON := .obj [("financials", .arr [entry_ie_neg1])]

/-- A financial entry with `profitBeforeInterestAndTax = 5` and
`interestExpenses = -1`. -/
def entry_pbit5_ie_neg1 : JSON :=
  .obj [("pnl", .obj [("lineItems", .obj [
    ("profitBeforeInterestAndTax", .num 5),
    ("interestExpenses", .num (-1))])])]

/-- A record whose single entry has `profitBeforeInterestAndTax = 5` and
`interestExpenses = -1`. -/
def rec_pbit5_ie_neg1 : JSON := .obj [("financials", .arr [entry_pbit5_ie_neg1])]

/-- A financial entry carrying the string `"not-a-number"` as its
`netRevenue`. -/
def entry_nr_nan : JSON :=
  .obj [("pnl", .obj [("lineItems", .obj [("netRevenue", .str "not-a-number")])])]

/-- A record whose single entry carries the string `"not-a-number"` as its
`netRevenue`. -/
def rec_nr_nan : JSON := .obj [("financials", .arr [entry_nr_nan])]

/-- A financial entry carrying `netRevenue = 7`. -/
def entry_nr_7 : JSON :=
  .obj [("pnl", .obj [("lineItems", .obj [("netRevenue", .num 7)])])]

/-- A record whose single entry carries `netRevenue = 7`. -/
def rec_nr_7 : JSON := .obj [("financials", .arr [entry_nr_7])]

/-- A financial entry with all three ISCR line items equal to 0. -/
def entry_iscr_zero : JSON :=
  .obj [("pnl", .obj [("lineItems", .obj [
    ("profitBeforeInterestAndTax", .num 0),
    ("depreciation", .num 0),
    ("interestExpenses", .num 0)])])]

/-- A record whose single entry has all three ISCR line items equal to 0. -/
def rec_iscr_zero : JSON := .obj [("financials", .arr [entry_iscr_zero])]

/-- A financial entry with `profitBeforeInterestAndTax = 9`,
`depreciation = 0` and `interestExpenses = 9`. -/
def entry_iscr_nine : JSON :=
  .obj [("pnl", .obj [("lineItems", .obj [
    ("profitBeforeInterestAndTax", .num 9),
    ("depreciation", .num 0),
    ("interestExpenses", .num 9)])])]

/-- A record whose single entry has `profitBeforeInterestAndTax = 9`,
`depreciation = 0` and `interestExpenses = 9`. -/
def rec_iscr_nine : JSON := .obj [("financials", .arr [entry_iscr_nine])]

/-- A concrete rule module used to instantiate universally quantified
theorems about the orchestrator. -/
def const_rule : RuleModule where
  latest_financial_index := fun _ => 0
  total_revenue_5cr_flag := fun _ _ => true
  borrowing_to_revenue_flag := fun _ _ => false
  iscr_flag := fun _ _ => true

/-! ## General evaluation lemmas -/

/-- The `except (KeyError, ValueError)` handler never lets those two error
kinds through: whatever it wraps, the result is not a `KeyError` and not a
`ValueError`. -/
theorem catch_kv_err_ne (e : Except PyErr ℚ) :
    catch_kv_err e ≠ .error .keyError ∧ catch_kv_err e ≠ .error .valueError := by
  cases e with
  | ok v => simp [catch_kv_err]
  | error k => cases k <;> simp [catch_kv_err]

/-- Python addition of two numeric operands is exact rational addition. -/
theorem py_add_num (a b : JSON) (x y : ℚ)
    (ha : py_num_val? a = some x) (hb : py_num_val? b = some y) :
    py_add a b = .ok (.num (x + y)) := by
  simp only [py_add, ha, hb]

/-- Python division of numeric operands with a nonzero divisor is exact
rational division. -/
theorem py_div_num (a b : JSON) (x y : ℚ)
    (ha : py_num_val? a = some x) (hb : py_num_val? b = some y) (hy : y ≠ 0) :
    py_div a b = .ok (x / y) := by
  simp only [py_div, ha, hb]
  rw [if_neg hy]

/-- Python division of numeric operands by zero raises `ZeroDivisionError`. -/
theorem py_div_zero (a b : JSON) (x y : ℚ)
    (ha : py_num_val? a = some x) (hb : py_num_val? b = some y) (hy : y = 0) :
    py_div a b = .error .zeroDivisionError := by
  simp only [py_div, ha, hb]
  rw [if_pos hy]

/-- Evaluation of `iscr` on a record whose `financials` is a list, whose
entry at the requested index exists, and whose three line items (after the
defaulting `get` chain) are numeric with a nonzero smoothed denominator:
the result is exactly `(p + d + 1) / (q + 1)`. -/
theorem iscr_eval (data : JSON) (l : List JSON) (i : Int) (e vp vd vi : JSON)
    (p d q : ℚ)
    (hf : dict_get_none data "financials" = .ok (.arr l))
    (he : py_subscript (.arr l) i = .ok e)
    (hp : pnl_line_item e "profitBeforeInterestAndTax" = .ok vp)
    (hd : pnl_line_item e "depreciation" = .ok vd)
    (hi : pnl_line_item e "interestExpenses" = .ok vi)
    (hvp : py_num_val? vp = some p)
    (hvd : py_num_val? vd = some d)
    (hvi : py_num_val? vi = some q)
    (hq : q + 1 ≠ 0) :
    iscr data i = .ok ((p + d + 1) / (q + 1)) := by
  have a1 : py_add vp vd = .ok (.num (p + d)) := py_add_num _ _ _ _ hvp hvd
  have a2 : py_add (.num (p + d)) (.num 1) = .ok (.num (p + d + 1)) :=
    py_add_num _ _ _ _ rfl rfl
  have a3 : py_add vi (.num 1) = .ok (.num (q + 1)) := py_add_num _ _ _ _ hvi rfl
  have dv : py_div (.num (p + d + 1)) (.num (q + 1)) = .ok ((p + d + 1) / (q + 1)) :=
    py_div_num _ _ _ _ rfl rfl hq
  unfold iscr
  rw [hf]
  simp only [Except.bind]
  rw [he]
  simp only [Except.bind]
  rw [hp]
  simp only [Except.bind]
  rw [hd]
  simp only [Except.bind]
  rw [hi]
  simp only [Except.bind]
  rw [a1]
  simp only [Except.bind]
  rw [a2]
  simp only [Except.bind]
  rw [a3]
  simp only [Except.bind]
  rw [dv]
  simp [catch_kv_err]

/-- Faithfulness samples of the float-string parser over the grammar's
classes: exponent forms, surrounding whitespace, underscore separators,
fractional and signed forms, the non-finite specials, and rejected
strings. -/
theorem py_float_parse_samples :
    py_float_parse "2E3" = .finite 2000 ∧
    py_float_parse " 3" = .finite 3 ∧
    py_float_parse "1_0" = .finite 10 ∧
    py_float_parse "-2.5e-2" = .finite (-(1 / 40)) ∧
    py_float_parse "1." = .finite 1 ∧
    py_float_parse ".5" = .finite (1 / 2) ∧
    py_float_parse "inf" = .nonfinite ∧
    py_float_parse "-Infinity" = .nonfinite ∧
    py_float_parse "NaN" = .nonfinite ∧
    py_float_parse "not-a-number" = .invalid ∧
    py_float_parse "1__0" = .invalid ∧
    py_float_parse "1_" = .invalid ∧
    py_float_parse "" = .invalid ∧
    py_float_parse "." = .invalid ∧
    py_float_parse "1e" = .invalid := by
  refine ⟨?_, ?_, ?_, ?_, ?_, ?_, rfl, rfl, rfl, rfl, rfl, rfl, rfl, rfl, rfl⟩ <;>
  simp [py_float_parse, strip_py_spaces, py_space, split_sign, parse_mantissa,
    take_digitpart, digitpart_cont, parse_exp, List.dropWhile, Char.toLower] <;>
  norm_num

/-- Out-of-range list subscription (outside `[-len, len)`) raises
`IndexError`. -/
theorem py_list_index_out (items : List JSON) (i : Int)
    (h : i < -(items.length : Int) ∨ (items.length : Int) ≤ i) :
    py_list_index items i = .error .indexError := by
  simp only [py_list_index]
  by_cases hi : i < 0
  · rw [if_pos hi, if_neg (by omega)]
  · rw [if_neg hi, if_neg (by omega)]

/-! ## Claim theorems -/

/-- C1 (corrected): for a record whose `financials` list contains the
requested entry and whose three line items — each taken from the entry's
`pnl.lineItems` chain with every missing level defaulting to 0 — are
numeric, and whose smoothed denominator `interestExpenses + 1` is nonzero,
`iscr` returns exactly
`(profitBeforeInterestAndTax + depreciation + 1) / (interestExpenses + 1)`. -/
theorem iscr_formula_on_numeric_items (data : JSON) (l : List JSON) (i : Int)
    (e vp vd vi : JSON) (p d q : ℚ)
    (hf : dict_get_none data "financials" = .ok (.arr l))
    (he : py_subscript (.arr l) i = .ok e)
    (hp : pnl_line_item e "profitBeforeInterestAndTax" = .ok vp)
    (hd : pnl_line_item e "depreciation" = .ok vd)
    (hi : pnl_line_item e "interestExpenses" = .ok vi)
    (hvp : py_num_val? vp = some p)
    (hvd : py_num_val? vd = some d)
    (hvi : py_num_val? vi = some q)
    (hq : q + 1 ≠ 0) :
    iscr data i = .ok ((p + d + 1) / (q + 1)) :=
  iscr_eval data l i e vp vd vi p d q hf he hp hd hi hvp hvd hvi hq

/-- C1 witness: on the record with line items 9, 0, 9 the theorem yields
the formula value (9 + 0 + 1) / (9 + 1). -/
theorem iscr_formula_on_numeric_items_witness :
    iscr rec_iscr_nine 0 = .ok ((9 + 0 + 1) / (9 + 1)) :=
  iscr_formula_on_numeric_items rec_iscr_nine [entry_iscr_nine] 0
    entry_iscr_nine (.num 9) (.num 0) (.num 9) 9 0 9
    rfl rfl rfl rfl rfl rfl rfl rfl (by norm_num)

/-- C1 counterexample: the claim asserts that `iscr` returns the formula
value whenever the entry exists, but on an entry whose only line item is
`interestExpenses = -1` the denominator is `-1 + 1 = 0` and `iscr` raises
`ZeroDivisionError` instead of returning. -/
theorem iscr_interest_neg_one_raises :
    iscr rec_ie_neg1 0 = .error .zeroDivisionError := by
  simp [iscr, rec_ie_neg1, entry_ie_neg1, dict_get_none, dict_get, dict_lookup,
    py_subscript, py_list_index, pnl_line_item, py_add, py_div, py_num_val?,
    catch_kv_err, Except.bind]

/-- C2 (corrected): the two accessors catch exactly the `KeyError` and
`ValueError` classes and map them to `0.0`; consequently neither function
ever surfaces a `KeyError` or a `ValueError`.  (Other failures — absent or
non-subscriptable `financials`, out-of-range index, non-dict entries,
unconvertible values, non-numeric arithmetic, zero denominator — do
propagate; see the counterexample.) -/
theorem accessors_catch_only_key_value_errors (data : JSON) (i : Int) :
    total_revenue data i ≠ .error .keyError ∧
    total_revenue data i ≠ .error .valueError ∧
    iscr data i ≠ .error .keyError ∧
    iscr data i ≠ .error .valueError := by
  unfold total_revenue iscr
  exact ⟨(catch_kv_err_ne _).1, (catch_kv_err_ne _).2,
    (catch_kv_err_ne _).1, (catch_kv_err_ne _).2⟩

/-- C2 witness: the no-`KeyError`/no-`ValueError` guarantee instantiated at
a concrete record and index. -/
theorem accessors_catch_only_key_value_errors_witness :
    total_revenue rec_nr_7 0 ≠ .error .keyError ∧
    iscr rec_nr_7 0 ≠ .error .keyError :=
  ⟨(accessors_catch_only_key_value_errors rec_nr_7 0).1,
   (accessors_catch_only_key_value_errors rec_nr_7 0).2.2.1⟩

/-- C2 counterexample: the claim says the accessors never raise, but on a
record with no `financials` key, `data.get("financials")` is `None` and
subscripting `None` raises `TypeError`, which the handler does not catch:
both accessors raise on the empty record. -/
theorem accessors_missing_financials_type_error :
    total_revenue (.obj []) 0 = .error .typeError ∧
    iscr (.obj []) 0 = .error .typeError := by
  constructor <;> rfl

/-- C4 (confirmed): `probe_model_5l_profit` returns a mapping whose single
top-level key is `"flags"`, bound to a mapping with exactly the keys
`TOTAL_REVENUE_5CR_FLAG`, `BORROWING_TO_REVENUE_FLAG` and `ISCR_FLAG`,
whose values are the three rule functions applied to the record and the
single selected latest index. -/
theorem probe_model_flags_shape (rule : RuleModule) (data : JSON) :
    probe_model_5l_profit rule data = .obj [("flags", .obj [
      ("TOTAL_REVENUE_5CR_FLAG",
        .bool (rule.total_revenue_5cr_flag data (rule.latest_financial_index data))),
      ("BORROWING_TO_REVENUE_FLAG",
        .bool (rule.borrowing_to_revenue_flag data (rule.latest_financial_index data))),
      ("ISCR_FLAG",
        .bool (rule.iscr_flag data (rule.latest_financial_index data)))])] :=
  rfl

/-- C5 (confirmed): in the instrumented orchestrator — identical to
`probe_model_5l_profit` but recording each call into the rule module —
exactly one `latest_financial_index` call occurs, every rule-predicate call
receives that single selected index, and the three predicates are each
called once, in source order. -/
theorem probe_latest_index_once (rule : RuleModule) (data : JSON) :
    (probe_model_5l_profit_calls rule data).1 = probe_model_5l_profit rule data ∧
    ((probe_model_5l_profit_calls rule data).2.countP (fun c => c.isLatest)) = 1 ∧
    (∀ name idx,
      RuleCall.flagCall name idx ∈ (probe_model_5l_profit_calls rule data).2 →
      idx = rule.latest_financial_index data) ∧
    ((probe_model_5l_profit_calls rule data).2.filter (fun c => !c.isLatest)) =
      [.flagCall "total_revenue_5cr_flag" (rule.latest_financial_index data),
       .flagCall "borrowing_to_revenue_flag" (rule.latest_financial_index data),
       .flagCall "iscr_flag" (rule.latest_financial_index data)] := by
  refine ⟨rfl, ?_, ?_, ?_⟩
  · simp [probe_model_5l_profit_calls, List.countP, List.countP.go, RuleCall.isLatest]
  · intro name idx h
    simp only [probe_model_5l_profit_calls, List.mem_cons, List.not_mem_nil,
      or_false] at h
    rcases h with h | h | h | h
    · exact absurd h (by simp)
    · injection h with h1 h2
    · injection h with h1 h2
    · injection h with h1 h2
  · simp [probe_model_5l_profit_calls, List.filter, RuleCall.isLatest]

/-- C5 witness: the single-selection property instantiated at a concrete
rule module and record. -/
theorem probe_latest_index_once_witness :
    ((probe_model_5l_profit_calls const_rule JSON.null).2.countP
      (fun c => c.isLatest)) = 1 :=
  (probe_latest_index_once const_rule JSON.null).2.1

/-- C6 (confirmed): for a record whose `financials` list contains the
requested entry, if the entry's line items are
`profitBeforeInterestAndTax = 0`, `depreciation = 0`,
`interestExpenses = 0`, then `iscr` returns exactly `1.0`
(`(0 + 0 + 1) / (0 + 1)`); and if they are `9`, `0`, `9`, then `iscr`
returns exactly `1.0` (`(9 + 0 + 1) / (9 + 1)`). -/
theorem iscr_unit_ratio_scenarios (data : JSON) (l : List JSON) (i : Int)
    (e : JSON)
    (hf : dict_get_none data "financials" = .ok (.arr l))
    (he : py_subscript (.arr l) i = .ok e) :
    ((pnl_line_item e "profitBeforeInterestAndTax" = .ok (.num 0) ∧
      pnl_line_item e "depreciation" = .ok (.num 0) ∧
      pnl_line_item e "interestExpenses" = .ok (.num 0)) →
      iscr data i = .ok 1) ∧
    ((pnl_line_item e "profitBeforeInterestAndTax" = .ok (.num 9) ∧
      pnl_line_item e "depreciation" = .ok (.num 0) ∧
      pnl_line_item e "interestExpenses" = .ok (.num 9)) →
      iscr data i = .ok 1) := by
  constructor
  · rintro ⟨hp, hd, hi⟩
    have h := iscr_eval data l i e _ _ _ 0 0 0 hf he hp hd hi rfl rfl rfl
      (by norm_num)
    rw [h]
    norm_num
  · rintro ⟨hp, hd, hi⟩
    have h := iscr_eval data l i e _ _ _ 9 0 9 hf he hp hd hi rfl rfl rfl
      (by norm_num)
    rw [h]
    norm_num

/-- C6 witness: both scenarios realized on concrete records. -/
theorem iscr_unit_ratio_scenarios_witness :
    iscr rec_iscr_zero 0 = .ok 1 ∧ iscr rec_iscr_nine 0 = .ok 1 :=
  ⟨(iscr_unit_ratio_scenarios rec_iscr_zero [entry_iscr_zero] 0 entry_iscr_zero
      rfl rfl).1 ⟨rfl, rfl, rfl⟩,
   (iscr_unit_ratio_scenarios rec_iscr_nine [entry_iscr_nine] 0 entry_iscr_nine
      rfl rfl).2 ⟨rfl, rfl, rfl⟩⟩

/-- C7 (confirmed): for a record whose `financials` list contains the
requested entry and whose `netRevenue` line item is the string
`"not-a-number"`, `total_revenue` returns `0.0` (the `float(...)` call
raises `ValueError`, which the handler catches) and does not raise. -/
theorem total_revenue_not_a_number_string (data : JSON) (l : List JSON)
    (i : Int) (e : JSON)
    (hf : dict_get_none data "financials" = .ok (.arr l))
    (he : py_subscript (.arr l) i = .ok e)
    (hn : pnl_line_item e "netRevenue" = .ok (.str "not-a-number")) :
    total_revenue data i = .ok 0 := by
  unfold total_revenue
  rw [hf]
  simp only [Except.bind]
  rw [he]
  simp only [Except.bind]
  rw [hn]
  have hp : py_float_parse "not-a-number" = .invalid := by rfl
  simp only [Except.bind, py_float, hp]
  simp [catch_kv_err]

/-- C7 witness: the `"not-a-number"` case realized on a concrete record. -/
theorem total_revenue_not_a_number_string_witness :
    total_revenue rec_nr_nan 0 = .ok 0 :=
  total_revenue_not_a_number_string rec_nr_nan [entry_nr_nan] 0 entry_nr_nan
    rfl rfl rfl

/-- C8 (confirmed): `probe_model_5l_profit` is a pure function of the rule
module and the record — two invocations on the same (unmodified) record
yield identical output mappings. -/
theorem probe_model_deterministic (rule : RuleModule) (data1 data2 : JSON)
    (h : data1 = data2) :
    probe_model_5l_profit rule data1 = probe_model_5l_profit rule data2 := by
  rw [h]

/-- C8 witness: determinism instantiated at a concrete rule module and
record. -/
theorem probe_model_deterministic_witness :
    probe_model_5l_profit const_rule rec_nr_7 =
      probe_model_5l_profit const_rule rec_nr_7 :=
  probe_model_deterministic const_rule rec_nr_7 rec_nr_7 rfl

/-- C9 (confirmed): on any record whose entry at the requested index has
numeric line items with `interestExpenses = -1`, the denominator
`interestExpenses + 1` is zero and `iscr` raises `ZeroDivisionError`,
which is not among the classes its handler catches. -/
theorem iscr_zero_division_reachable (data : JSON) (l : List JSON) (i : Int)
    (e vp vd vi : JSON) (p d : ℚ)
    (hf : dict_get_none data "financials" = .ok (.arr l))
    (he : py_subscript (.arr l) i = .ok e)
    (hp : pnl_line_item e "profitBeforeInterestAndTax" = .ok vp)
    (hd : pnl_line_item e "depreciation" = .ok vd)
    (hi : pnl_line_item e "interestExpenses" = .ok vi)
    (hvp : py_num_val? vp = some p)
    (hvd : py_num_val? vd = some d)
    (hvi : py_num_val? vi = some (-1)) :
    iscr data i = .error .zeroDivisionError := by
  have a1 : py_add vp vd = .ok (.num (p + d)) := py_add_num _ _ _ _ hvp hvd
  have a2 : py_add (.num (p + d)) (.num 1) = .ok (.num (p + d + 1)) :=
    py_add_num _ _ _ _ rfl rfl
  have a3 : py_add vi (.num 1) = .ok (.num (-1 + 1)) := py_add_num _ _ _ _ hvi rfl
  have dv : py_div (.num (p + d + 1)) (.num (-1 + 1)) = .error .zeroDivisionError :=
    py_div_zero _ _ _ _ rfl rfl (by norm_num)
  unfold iscr
  rw [hf]
  simp only [Except.bind]
  rw [he]
  simp only [Except.bind]
  rw [hp]
  simp only [Except.bind]
  rw [hd]
  simp only [Except.bind]
  rw [hi]
  simp only [Except.bind]
  rw [a1]
  simp only [Except.bind]
  rw [a2]
  simp only [Except.bind]
  rw [a3]
  simp only [Except.bind]
  rw [dv]
  simp [catch_kv_err]

/-- C9 witness: the uncaught division by zero realized on a concrete record
with `profitBeforeInterestAndTax = 5` and `interestExpenses = -1`. -/
theorem iscr_zero_division_reachable_witness :
    iscr rec_pbit5_ie_neg1 0 = .error .zeroDivisionError :=
  iscr_zero_division_reachable rec_pbit5_ie_neg1 [entry_pbit5_ie_neg1] 0
    entry_pbit5_ie_neg1 (.num 5) (.num 0) (.num (-1)) 5 0
    rfl rfl rfl rfl rfl rfl rfl rfl

/-- C10 (confirmed): on any record whose `financials` value is a list and
any index outside the list's valid (Python) range `[-len, len)`, both
`total_revenue` and `iscr` raise `IndexError` — their handlers catch only
`KeyError` and `ValueError`, not indexing errors. -/
theorem accessors_index_error_out_of_range (data : JSON) (l : List JSON)
    (i : Int)
    (hf : dict_get_none data "financials" = .ok (.arr l))
    (h : i < -(l.length : Int) ∨ (l.length : Int) ≤ i) :
    total_revenue data i = .error .indexError ∧
    iscr data i = .error .indexError := by
  have hs : py_subscript (.arr l) i = .error .indexError := by
    simp only [py_subscript]
    exact py_list_index_out l i h
  constructor
  · unfold total_revenue
    rw [hf]
    simp only [Except.bind]
    rw [hs]
    simp [catch_kv_err, Except.bind]
  · unfold iscr
    rw [hf]
    simp only [Except.bind]
    rw [hs]
    simp [catch_kv_err, Except.bind]

/-- C10 witness: index 5 on a one-entry record raises `IndexError` from
both accessors. -/
theorem accessors_index_error_out_of_range_witness :
    total_revenue rec_nr_7 5 = .error .indexError ∧
    iscr rec_nr_7 5 = .error .indexError :=
  accessors_index_error_out_of_range rec_nr_7 [entry_nr_7] 5 rfl
    (Or.inr (by decide))
